import Mathlib

/-!
Shallow embedding of the CAAT (Climate-Adaptive Architecture Tool) backend
scoring engine, following the TypeScript sources:

- `src/backend/src/schemas/schemas.assessment.ts` (data model and zod schema)
- `src/backend/src/config/config.ts` (weights, flood parameters, thresholds)
- `src/backend/src/services/services.scoring.ts` (scorer, timeline projector,
  rule-based recommendation generator)
- `src/backend/src/services/services.ai.ts` (recommendation enhancer boundary)
- `src/backend/src/api/api.routes.ts` (POST /assess route composition)

JavaScript numbers are embedded as rationals (ℚ); the enumerated string
unions become inductive types; `Array.reduce` becomes `List.foldl`.
-/

namespace CAAT

/-- Foundation types, from the `FoundationType` zod enum. -/
inductive FoundationType where
  | SLAB_ON_GRADE
  | PIER_AND_BEAM
  | PILE_FOUNDATION
  | ELEVATED_FOUNDATION
deriving DecidableEq

/-- Structural material types, from the `MaterialType` zod enum. -/
inductive MaterialType where
  | CONCRETE
  | STEEL_FRAME
  | WOOD_FRAME
  | MASONRY
  | MIXED
deriving DecidableEq

/-- Roof material types, from the `RoofMaterialType` zod enum. -/
inductive RoofMaterialType where
  | METAL
  | ASPHALT_SHINGLE
  | TILE
deriving DecidableEq

/-- Mitigation features, from the `MitigationFeature` zod enum. -/
inductive MitigationFeature where
  | FLOOD_VENTS
  | WATERPROOFING
  | BACKFLOW_PREVENTION
  | ELEVATED_UTILITIES
  | FLOOD_BARRIERS
deriving DecidableEq

/-- Latitude/longitude pair, from the `location` object of the request schema. -/
structure Location where
  latitude : ℚ
  longitude : ℚ
deriving DecidableEq

/-- A validated assessment request, the TypeScript `AssessmentRequest` type
inferred from `AssessmentRequestSchema`. -/
structure AssessmentRequest where
  foundationType : FoundationType
  elevationAboveBFE : ℚ
  currentBFE : ℚ
  materials : List MaterialType
  roofMaterial : RoofMaterialType
  mitigationFeatures : List MitigationFeature
  utilityProtection : Bool
  location : Location
  designDescription : Option String
deriving DecidableEq

/-- Scoring weights, the shape of `config.scoringWeights`. -/
structure ScoringWeights where
  elevation : ℚ
  foundationType : ℚ
  materials : ℚ
  mitigationFeatures : ℚ
  utilityProtection : ℚ

/-- Baseline flood parameters, the shape of `config.baselineFloodParameters`. -/
structure BaselineFloodParameters where
  currentBFE : ℚ
  annualRiseRate : ℚ
  simulationYears : List ℤ

/-- Performance thresholds, the shape of `config.thresholds`. -/
structure Thresholds where
  criticalScore : ℚ
  warningScore : ℚ

/-- The parts of `config` consumed by the scoring service. -/
structure Config where
  scoringWeights : ScoringWeights
  baselineFloodParameters : BaselineFloodParameters
  thresholds : Thresholds

/-- The configuration constants of `src/backend/src/config/config.ts`. -/
def config : Config :=
  { scoringWeights :=
      { elevation := 0.40
        foundationType := 0.20
        materials := 0.15
        mitigationFeatures := 0.15
        utilityProtection := 0.10 }
    baselineFloodParameters :=
      { currentBFE := 8.0
        annualRiseRate := 0.1
        simulationYears := [2025, 2030, 2035, 2040, 2045, 2050, 2055] }
    thresholds :=
      { criticalScore := 60
        warningScore := 75 } }

/-- The `foundationScores` record of `services.scoring.ts`. -/
def foundationScores : FoundationType → ℚ
  | .SLAB_ON_GRADE => 40
  | .PIER_AND_BEAM => 60
  | .PILE_FOUNDATION => 80
  | .ELEVATED_FOUNDATION => 100

/-- The `materialScores` record of `services.scoring.ts`. -/
def materialScores : MaterialType → ℚ
  | .CONCRETE => 100
  | .STEEL_FRAME => 80
  | .WOOD_FRAME => 60
  | .MASONRY => 70
  | .MIXED => 50

/-- The `roofMaterialScores` record of `services.scoring.ts`. -/
def roofMaterialScores : RoofMaterialType → ℚ
  | .METAL => 80
  | .ASPHALT_SHINGLE => 50
  | .TILE => 75

/-- The `mitigationFeatureScores` record of `services.scoring.ts`. -/
def mitigationFeatureScores : MitigationFeature → ℚ
  | .FLOOD_VENTS => 20
  | .WATERPROOFING => 25
  | .BACKFLOW_PREVENTION => 20
  | .ELEVATED_UTILITIES => 20
  | .FLOOD_BARRIERS => 15

/-- `ScoringService.calculateCurrentScore` of `services.scoring.ts`.
Note: dividing the materials sum by `materials.length` is ℚ-division; on an
empty list this is `0 / 0 = 0` in Lean where JavaScript produces `NaN`
(empty `materials` is outside the documented precondition). -/
def calculateCurrentScore (request : AssessmentRequest) : ℚ :=
  let elevationScore := min (request.elevationAboveBFE * 10) 100
  let foundationScore := foundationScores request.foundationType
  let materialsScore :=
    (request.materials.foldl (fun sum material => sum + materialScores material) 0) /
      (request.materials.length : ℚ)
  let roofMaterialScore := roofMaterialScores request.roofMaterial
  let mitigationScore :=
    min (request.mitigationFeatures.foldl
          (fun sum feature => sum + mitigationFeatureScores feature) 0) 100
  let utilityScore : ℚ := if request.utilityProtection then 100 else 0
  let combinedMaterialsScore := materialsScore * 0.7 + roofMaterialScore * 0.3
  elevationScore * config.scoringWeights.elevation +
    foundationScore * config.scoringWeights.foundationType +
    combinedMaterialsScore * config.scoringWeights.materials +
    mitigationScore * config.scoringWeights.mitigationFeatures +
    utilityScore * config.scoringWeights.utilityProtection

/-- `Number(x.toFixed(2))`: round to 2 decimal places (half away from zero on
the non-negative values used here). -/
def round2 (x : ℚ) : ℚ := (round (x * 100) : ℤ) / 100

/-- `x.toFixed(1)` as a string, used for the elevation recommendation line. -/
def toFixed1 (x : ℚ) : String :=
  let n : ℤ := round (x * 10)
  let sign := if n < 0 then "-" else ""
  sign ++ toString (n.natAbs / 10) ++ "." ++ toString (n.natAbs % 10)

/-- `ScoringService.generateRecommendations` of `services.scoring.ts`: the
seven pushes onto the `recommendations` array, in source order. -/
def generateRecommendations (request : AssessmentRequest) (projectedBFE : ℚ) :
    List String :=
  let score := calculateCurrentScore request
  let r1 : List String :=
    if score < config.thresholds.criticalScore then
      ["CRITICAL: Immediate action required to improve flood resilience"]
    else if score < config.thresholds.warningScore then
      ["WARNING: Consider improvements to enhance flood resilience"]
    else []
  let r2 : List String :=
    if request.elevationAboveBFE < 3 then
      ["Consider elevating the structure above projected BFE of " ++
        toFixed1 projectedBFE ++ " feet"]
    else []
  let r3 : List String :=
    if request.foundationType = FoundationType.SLAB_ON_GRADE then
      ["Consider upgrading to a more flood-resistant foundation type"]
    else []
  let r4 : List String :=
    if MaterialType.WOOD_FRAME ∈ request.materials then
      ["Consider using more flood-resistant materials for critical components"]
    else []
  let r5 : List String :=
    if request.roofMaterial = RoofMaterialType.ASPHALT_SHINGLE then
      ["Consider upgrading to metal or tile roofing for better wind resistance and longevity"]
    else []
  let r6 : List String :=
    if request.roofMaterial = RoofMaterialType.METAL ∧
        request.foundationType = FoundationType.SLAB_ON_GRADE then
      ["Metal roofing provides excellent resilience - consider pairing with elevated foundation for maximum protection"]
    else []
  let r7 : List String :=
    if request.utilityProtection = false then
      ["Implement utility protection measures to prevent flood damage"]
    else []
  r1 ++ r2 ++ r3 ++ r4 ++ r5 ++ r6 ++ r7

/-- One timeline point, the object pushed by `generateTimeline`. -/
structure ProjectionPoint where
  year : ℤ
  projectedBFE : ℚ
  score : ℚ
  recommendations : List String
deriving DecidableEq

instance : Inhabited ProjectionPoint := ⟨⟨0, 0, 0, []⟩⟩

/-- The adjusted per-year request built inside `generateTimeline`:
spread of the original request with `elevationAboveBFE` replaced by
`Math.max(0, elevationAboveBFE - bfeRise)`. -/
def adjustedRequest (request : AssessmentRequest) (bfeRise : ℚ) : AssessmentRequest :=
  { request with elevationAboveBFE := max 0 (request.elevationAboveBFE - bfeRise) }

/-- Insertion of an element into a sorted list, for the ascending numeric
sort `[...simulationYears].sort((a, b) => a - b)`. -/
def insertSorted (x : ℤ) : List ℤ → List ℤ
  | [] => [x]
  | y :: ys => if x ≤ y then x :: y :: ys else y :: insertSorted x ys

/-- Ascending sort of the simulation years. -/
def sortAscending (l : List ℤ) : List ℤ := l.foldr insertSorted []

/-- The body of the `for (const year of simulationYears)` loop of
`ScoringService.generateTimeline`: the `ProjectionPoint` pushed for one year. -/
def generateTimelineEntry (params : BaselineFloodParameters)
    (request : AssessmentRequest) (year : ℤ) : ProjectionPoint :=
  let yearsFrom2025 : ℤ := year - 2025
  let projectedBFE := request.currentBFE + (yearsFrom2025 : ℚ) * params.annualRiseRate
  let bfeRise := projectedBFE - request.currentBFE
  let adjusted := adjustedRequest request bfeRise
  { year := year
    projectedBFE := round2 projectedBFE
    score := calculateCurrentScore adjusted
    recommendations := generateRecommendations adjusted projectedBFE }

/-- `ScoringService.generateTimeline`, parameterized by the flood parameters
it reads from `config`. -/
def generateTimelineWith (params : BaselineFloodParameters)
    (request : AssessmentRequest) : List ProjectionPoint :=
  (sortAscending params.simulationYears).map (generateTimelineEntry params request)

/-- `ScoringService.generateTimeline` at the configured flood parameters. -/
def generateTimeline (request : AssessmentRequest) : List ProjectionPoint :=
  generateTimelineWith config.baselineFloodParameters request

/-- The `line.replace(/^[-•*]\s*/, '')` step of the AI response parser:
strip one leading bullet character and any whitespace following it. -/
def stripBullet (line : String) : String :=
  match line.data with
  | c :: rest =>
      if c = '-' ∨ c = '•' ∨ c = '*' then
        String.mk (rest.dropWhile Char.isWhitespace)
      else line
  | [] => line

/-- The split/filter/map pipeline of `AIService.generateEnhancedRecommendations`
applied to a non-empty response string. -/
def parseAIResponse (response : String) : List String :=
  ((response.splitOn "\n").filter (fun line => 0 < line.trim.length)).map
    (fun line => (stripBullet line).trim)

/-- `AIService.generateEnhancedRecommendations` at its boundary: `callResult`
is the content of the external completion, `none` standing for a thrown error
or a missing (`null`/`undefined`) content — both of which reach the `catch`
that returns `baseRecommendations`. An empty-string content is falsy in
JavaScript, so the `if (!response) throw` check sends it to the same fallback. -/
def generateEnhancedRecommendations (callResult : Option String)
    (baseRecommendations : List String) : List String :=
  match callResult with
  | none => baseRecommendations
  | some response =>
      if response = "" then baseRecommendations else parseAIResponse response

/-- The response object assembled by the `POST /api/assess` route. -/
structure AssessmentResponse where
  currentScore : ℚ
  timeline : List ProjectionPoint
  overallRecommendations : List String

/-- The success path of the `POST /api/assess` handler in `api.routes.ts`:
score, timeline, `baseRecommendations := timeline[0].recommendations`, then
the enhancer with its internal fallback. `aiCallResult` is the outcome of the
external OpenAI call. -/
def assess (request : AssessmentRequest) (aiCallResult : Option String) :
    AssessmentResponse :=
  let currentScore := calculateCurrentScore request
  let timeline := generateTimeline request
  let baseRecommendations := timeline.headI.recommendations
  let enhancedRecommendations :=
    generateEnhancedRecommendations aiCallResult baseRecommendations
  { currentScore := currentScore
    timeline := timeline
    overallRecommendations := enhancedRecommendations }

/-- The domain constraints of `AssessmentRequestSchema` beyond the typing
already enforced by the Lean types: `elevationAboveBFE: z.number().min(0)` and
`currentBFE: z.number().min(0)`. The schema puts no constraint on the length
of `materials` (`z.array(MaterialType)`) nor on `designDescription`. -/
def validateAssessmentRequest (request : AssessmentRequest) : Bool :=
  decide (0 ≤ request.elevationAboveBFE) && decide (0 ≤ request.currentBFE)

/-- Concrete scenario 1 of the specification: a maximally protected building. -/
def scenario1 : AssessmentRequest :=
  { foundationType := .ELEVATED_FOUNDATION
    elevationAboveBFE := 10
    currentBFE := 8
    materials := [.CONCRETE]
    roofMaterial := .METAL
    mitigationFeatures := [.FLOOD_VENTS, .WATERPROOFING, .BACKFLOW_PREVENTION,
                           .ELEVATED_UTILITIES, .FLOOD_BARRIERS]
    utilityProtection := true
    location := ⟨0, 0⟩
    designDescription := none }

/-- Concrete scenario 2 of the specification: an unprotected slab building. -/
def scenario2 : AssessmentRequest :=
  { foundationType := .SLAB_ON_GRADE
    elevationAboveBFE := 0
    currentBFE := 8
    materials := [.WOOD_FRAME]
    roofMaterial := .ASPHALT_SHINGLE
    mitigationFeatures := []
    utilityProtection := false
    location := ⟨0, 0⟩
    designDescription := none }

/-- Scenario 2 with the materials list emptied: the request that exercises the
missing non-emptiness constraint of the schema. -/
def emptyMaterialsRequest : AssessmentRequest :=
  { scenario2 with materials := [] }

/-! ## Helper lemmas -/

/-- Accumulating `foldl` over additions is the initial value plus the sum of
the mapped list (the `Array.reduce(..., 0)` pattern of the scorer). -/
lemma foldl_add_eq {α : Type} (f : α → ℚ) (l : List α) (a : ℚ) :
    l.foldl (fun sum x => sum + f x) a = a + (l.map f).sum := by
  induction l generalizing a with
  | nil => simp
  | cons x xs ih => simp [ih, add_assoc]

/-- Every foundation factor lies in [40, 100]. -/
lemma foundationScores_bounds (ft : FoundationType) :
    40 ≤ foundationScores ft ∧ foundationScores ft ≤ 100 := by
  cases ft <;> norm_num [foundationScores]

/-- Every structural-material factor lies in [50, 100]. -/
lemma materialScores_bounds (m : MaterialType) :
    50 ≤ materialScores m ∧ materialScores m ≤ 100 := by
  cases m <;> norm_num [materialScores]

/-- Every roof-material factor lies in [50, 80]. -/
lemma roofMaterialScores_bounds (r : RoofMaterialType) :
    50 ≤ roofMaterialScores r ∧ roofMaterialScores r ≤ 80 := by
  cases r <;> norm_num [roofMaterialScores]

/-- Every mitigation factor is non-negative. -/
lemma mitigationFeatureScores_nonneg (f : MitigationFeature) :
    0 ≤ mitigationFeatureScores f := by
  cases f <;> norm_num [mitigationFeatureScores]

/-- The structural-materials average lies in [0, 100] for a non-empty list. -/
lemma materialsAverage_bounds (l : List MaterialType) (h : l ≠ []) :
    0 ≤ (l.map materialScores).sum / (l.length : ℚ) ∧
      (l.map materialScores).sum / (l.length : ℚ) ≤ 100 := by
  have hlen : 0 < (l.length : ℚ) := by
    exact_mod_cast List.length_pos.mpr h
  have hnonneg : 0 ≤ (l.map materialScores).sum := by
    apply List.sum_nonneg
    intro x hx
    obtain ⟨m, _, rfl⟩ := List.mem_map.mp hx
    linarith [(materialScores_bounds m).1]
  have hub : (l.map materialScores).sum ≤ ((l.map materialScores).length : ℚ) * 100 := by
    have := List.sum_le_card_nsmul (l.map materialScores) 100 (by
      intro x hx
      obtain ⟨m, _, rfl⟩ := List.mem_map.mp hx
      exact (materialScores_bounds m).2)
    simpa [nsmul_eq_mul, mul_comm] using this
  constructor
  · exact div_nonneg hnonneg (le_of_lt hlen)
  · rw [div_le_iff₀ hlen]
    calc (l.map materialScores).sum ≤ ((l.map materialScores).length : ℚ) * 100 := hub
    _ = 100 * (l.length : ℚ) := by simp [mul_comm]

/-- The mitigation sum is non-negative. -/
lemma mitigationSum_nonneg (l : List MitigationFeature) :
    0 ≤ (l.map mitigationFeatureScores).sum := by
  apply List.sum_nonneg
  intro x hx
  obtain ⟨f, _, rfl⟩ := List.mem_map.mp hx
  exact mitigationFeatureScores_nonneg f

/-- The score is monotone in `elevationAboveBFE`, all other fields fixed. -/
lemma calculateCurrentScore_mono_elevation (request : AssessmentRequest)
    {e1 e2 : ℚ} (h : e1 ≤ e2) :
    calculateCurrentScore { request with elevationAboveBFE := e1 } ≤
      calculateCurrentScore { request with elevationAboveBFE := e2 } := by
  have hmin : min (e1 * 10) 100 ≤ min (e2 * 10) 100 :=
    min_le_min (by linarith) le_rfl
  simp only [calculateCurrentScore, config]
  linarith

/-- Raising the BFE rise never raises the score of the adjusted request. -/
lemma calculateCurrentScore_adjusted_anti (request : AssessmentRequest)
    {r1 r2 : ℚ} (h : r1 ≤ r2) :
    calculateCurrentScore (adjustedRequest request r2) ≤
      calculateCurrentScore (adjustedRequest request r1) :=
  calculateCurrentScore_mono_elevation request
    (max_le_max le_rfl (by linarith))

/-- The configured simulation years are already sorted ascending. -/
lemma sortYears_eq :
    sortAscending config.baselineFloodParameters.simulationYears =
      [2025, 2030, 2035, 2040, 2045, 2050, 2055] := by decide

/-! ## Claims -/

/-- C1: for every valid `AssessmentRequest` (enum fields well-typed,
`elevationAboveBFE ≥ 0`, `currentBFE ≥ 0`, `materials` non-empty),
`ScoringService.calculateCurrentScore` returns a value in the closed
interval [0, 100]; the definition applies no clamping to the total beyond
the `min` saturation inside the elevation and mitigation sub-scores. -/
theorem C1_score_in_unit_interval (request : AssessmentRequest)
    (h1 : 0 ≤ request.elevationAboveBFE) (h2 : 0 ≤ request.currentBFE)
    (h3 : request.materials ≠ []) :
    0 ≤ calculateCurrentScore request ∧ calculateCurrentScore request ≤ 100 := by
  have hElev : 0 ≤ min (request.elevationAboveBFE * 10) 100 ∧
      min (request.elevationAboveBFE * 10) 100 ≤ 100 :=
    ⟨le_min (by linarith) (by norm_num), min_le_right _ _⟩
  have hFound := foundationScores_bounds request.foundationType
  have hRoof := roofMaterialScores_bounds request.roofMaterial
  have hMat := materialsAverage_bounds request.materials h3
  have hMitSum := mitigationSum_nonneg request.mitigationFeatures
  have hMit : 0 ≤ min ((request.mitigationFeatures.map mitigationFeatureScores).sum) 100 ∧
      min ((request.mitigationFeatures.map mitigationFeatureScores).sum) 100 ≤ 100 :=
    ⟨le_min hMitSum (by norm_num), min_le_right _ _⟩
  have hUtil : 0 ≤ (if request.utilityProtection then (100 : ℚ) else 0) ∧
      (if request.utilityProtection then (100 : ℚ) else 0) ≤ 100 := by
    cases request.utilityProtection <;> norm_num
  simp only [calculateCurrentScore, config, foldl_add_eq, zero_add]
  constructor <;> nlinarith [hElev.1, hElev.2, hFound.1, hFound.2, hRoof.1, hRoof.2,
    hMat.1, hMat.2, hMit.1, hMit.2, hUtil.1, hUtil.2]

/-- Witness for C1 at concrete scenario 2. -/
theorem C1_score_in_unit_interval_witness :
    (0 ≤ scenario2.elevationAboveBFE ∧ 0 ≤ scenario2.currentBFE ∧
      scenario2.materials ≠ []) ∧
    (0 ≤ calculateCurrentScore scenario2 ∧ calculateCurrentScore scenario2 ≤ 100) :=
  ⟨⟨by decide, by decide, by decide⟩,
    C1_score_in_unit_interval scenario2 (by decide) (by decide) (by decide)⟩

/-- C2: if the external enhancer call throws, or its content is missing or
empty, the assembled response's `overallRecommendations` equals the first
timeline entry's `recommendations` exactly, and the route produces a normal
response (`assess` is a total function; the error is absorbed inside
`generateEnhancedRecommendations`). -/
theorem C2_enhancer_fallback (request : AssessmentRequest)
    (callResult : Option String)
    (h : callResult = none ∨ callResult = some "") :
    (assess request callResult).overallRecommendations =
      (generateTimeline request).headI.recommendations := by
  rcases h with rfl | rfl <;> simp [assess, generateEnhancedRecommendations]

/-- Witness for C2 at concrete scenario 2 with a thrown enhancer call. -/
theorem C2_enhancer_fallback_witness :
    (assess scenario2 none).overallRecommendations =
      (generateTimeline scenario2).headI.recommendations :=
  C2_enhancer_fallback scenario2 none (Or.inl rfl)

/-- C5: on the concrete scenario-2 input, the score is exactly 16.55 and the
generated recommendations (for any projected BFE) include the CRITICAL line
and the foundation-upgrade, materials-resilience, roof-upgrade and
utility-protection lines. -/
theorem C5_scenario2 (projectedBFE : ℚ) :
    calculateCurrentScore scenario2 = 16.55 ∧
    "CRITICAL: Immediate action required to improve flood resilience" ∈
      generateRecommendations scenario2 projectedBFE ∧
    "Consider upgrading to a more flood-resistant foundation type" ∈
      generateRecommendations scenario2 projectedBFE ∧
    "Consider using more flood-resistant materials for critical components" ∈
      generateRecommendations scenario2 projectedBFE ∧
    "Consider upgrading to metal or tile roofing for better wind resistance and longevity" ∈
      generateRecommendations scenario2 projectedBFE ∧
    "Implement utility protection measures to prevent flood damage" ∈
      generateRecommendations scenario2 projectedBFE := by
  have hscore : calculateCurrentScore scenario2 = 16.55 := by
    norm_num [calculateCurrentScore, scenario2, config, foundationScores,
      materialScores, roofMaterialScores, mitigationFeatureScores, min_def]
  have hscore2 := hscore
  simp only [scenario2] at hscore2
  refine ⟨hscore, ?_, ?_, ?_, ?_, ?_⟩ <;>
    norm_num [generateRecommendations, scenario2, hscore2, config]

/-- C6: increasing `elevationAboveBFE` with all other fields fixed never
decreases the score, and elevations 10 and 11 give the same saturated
elevation sub-score `min (e * 10) 100 = 100`, hence equal total scores. -/
theorem C6_elevation_monotone (request : AssessmentRequest) (e1 e2 : ℚ)
    (h : e1 ≤ e2) :
    calculateCurrentScore { request with elevationAboveBFE := e1 } ≤
      calculateCurrentScore { request with elevationAboveBFE := e2 } ∧
    min ((10 : ℚ) * 10) 100 = 100 ∧ min ((11 : ℚ) * 10) 100 = 100 ∧
    calculateCurrentScore { request with elevationAboveBFE := 10 } =
      calculateCurrentScore { request with elevationAboveBFE := 11 } := by
  refine ⟨calculateCurrentScore_mono_elevation request h, by norm_num,
    by rw [min_eq_right] <;> norm_num, ?_⟩
  have h10 : min ((10 : ℚ) * 10) 100 = 100 := by norm_num
  have h11 : min ((11 : ℚ) * 10) 100 = 100 := by rw [min_eq_right] <;> norm_num
  simp only [calculateCurrentScore, config, h10, h11]

/-- Witness for C6 at concrete scenario 2 and elevations 3 ≤ 4. -/
theorem C6_elevation_monotone_witness :
    ((3 : ℚ) ≤ 4) ∧
    (calculateCurrentScore { scenario2 with elevationAboveBFE := 3 } ≤
        calculateCurrentScore { scenario2 with elevationAboveBFE := 4 } ∧
      min ((10 : ℚ) * 10) 100 = 100 ∧ min ((11 : ℚ) * 10) 100 = 100 ∧
      calculateCurrentScore { scenario2 with elevationAboveBFE := 10 } =
        calculateCurrentScore { scenario2 with elevationAboveBFE := 11 }) :=
  ⟨by norm_num, C6_elevation_monotone scenario2 3 4 (by norm_num)⟩

/-- C3 counterexample: on the maximally protected scenario-1 building (score
99.1, high elevation, no slab, no wood frame, metal roof, utilities
protected) the rule-based generator returns the empty list, refuting the
claim that the per-year recommendation list is never empty. -/
theorem C3_counterexample : generateRecommendations scenario1 8 = [] := by
  have hscore : calculateCurrentScore scenario1 = 99.1 := by
    norm_num [calculateCurrentScore, scenario1, config, foundationScores,
      materialScores, roofMaterialScores, mitigationFeatureScores, min_def]
  have hscore2 := hscore
  simp only [scenario1] at hscore2
  norm_num [generateRecommendations, scenario1, hscore2, config]
  decide

/-- C3 amended: the rule-based generator returns an ordered list of strings
that is empty exactly when no rule condition fires: score at least the
warning threshold, elevation at least 3 ft, no slab-on-grade foundation, no
wood framing, no asphalt-shingle roof, and utility protection in place. -/
theorem C3_amended_empty_iff (request : AssessmentRequest) (projectedBFE : ℚ) :
    generateRecommendations request projectedBFE = [] ↔
      (config.thresholds.warningScore ≤ calculateCurrentScore request ∧
        3 ≤ request.elevationAboveBFE ∧
        request.foundationType ≠ FoundationType.SLAB_ON_GRADE ∧
        MaterialType.WOOD_FRAME ∉ request.materials ∧
        request.roofMaterial ≠ RoofMaterialType.ASPHALT_SHINGLE ∧
        request.utilityProtection = true) := by
  simp only [generateRecommendations, config]
  split_ifs <;> simp_all [not_lt] <;> (try (intros; linarith))

/-- C4: the timeline has exactly one entry per configured simulation year, in
ascending year order, and each entry's `projectedBFE` is
`currentBFE + (year - 2025) * annualRiseRate` rounded to 2 decimal places. -/
theorem C4_timeline_shape (request : AssessmentRequest) :
    (generateTimeline request).map ProjectionPoint.year =
        [2025, 2030, 2035, 2040, 2045, 2050, 2055] ∧
      (generateTimeline request).map ProjectionPoint.projectedBFE =
        ([2025, 2030, 2035, 2040, 2045, 2050, 2055] : List ℤ).map (fun y =>
          round2 (request.currentBFE +
            ((y - 2025 : ℤ) : ℚ) * config.baselineFloodParameters.annualRiseRate)) := by
  constructor
  · simp [generateTimeline, generateTimelineWith, sortYears_eq, generateTimelineEntry]
  · simp [generateTimeline, generateTimelineWith, sortYears_eq, generateTimelineEntry]
    norm_num

/-- C7: the request with an empty materials list passes the embedded
`AssessmentRequestSchema` domain checks — `z.array(MaterialType)` places no
lower bound on the array length — so it reaches the scorer, contradicting
the claim that it fails validation at the boundary. -/
theorem C7_empty_materials_passes_validation :
    validateAssessmentRequest emptyMaterialsRequest = true ∧
      emptyMaterialsRequest.materials = [] :=
  ⟨by decide, rfl⟩

/-- C8: the adjusted per-year request agrees with the original on every field
except `elevationAboveBFE`, which becomes `max 0 (elevationAboveBFE - bfeRise)`;
and each timeline entry's score and recommendations are computed from exactly
that adjusted request (with `bfeRise = (year - 2025) * annualRiseRate`). -/
theorem C8_adjusted_request_frame (request : AssessmentRequest) (bfeRise : ℚ) :
    ((adjustedRequest request bfeRise).elevationAboveBFE =
        max 0 (request.elevationAboveBFE - bfeRise) ∧
      (adjustedRequest request bfeRise).currentBFE = request.currentBFE ∧
      (adjustedRequest request bfeRise).foundationType = request.foundationType ∧
      (adjustedRequest request bfeRise).materials = request.materials ∧
      (adjustedRequest request bfeRise).roofMaterial = request.roofMaterial ∧
      (adjustedRequest request bfeRise).mitigationFeatures =
        request.mitigationFeatures ∧
      (adjustedRequest request bfeRise).utilityProtection =
        request.utilityProtection ∧
      (adjustedRequest request bfeRise).location = request.location ∧
      (adjustedRequest request bfeRise).designDescription =
        request.designDescription) ∧
    ((generateTimeline request).map ProjectionPoint.score =
      (sortAscending config.baselineFloodParameters.simulationYears).map (fun y =>
        calculateCurrentScore (adjustedRequest request
          (((y - 2025 : ℤ) : ℚ) * config.baselineFloodParameters.annualRiseRate)))) ∧
    ((generateTimeline request).map ProjectionPoint.recommendations =
      (sortAscending config.baselineFloodParameters.simulationYears).map (fun y =>
        generateRecommendations (adjustedRequest request
          (((y - 2025 : ℤ) : ℚ) * config.baselineFloodParameters.annualRiseRate))
          (request.currentBFE +
            ((y - 2025 : ℤ) : ℚ) * config.baselineFloodParameters.annualRiseRate))) := by
  refine ⟨⟨rfl, rfl, rfl, rfl, rfl, rfl, rfl, rfl, rfl⟩, ?_, ?_⟩ <;>
  · simp only [generateTimeline, generateTimelineWith, List.map_map]
    apply List.map_congr_left
    intro y _
    have harg : request.currentBFE +
        ((y - 2025 : ℤ) : ℚ) * config.baselineFloodParameters.annualRiseRate -
        request.currentBFE =
        ((y - 2025 : ℤ) : ℚ) * config.baselineFloodParameters.annualRiseRate := by
      ring
    simp only [Function.comp_apply, generateTimelineEntry, harg]

/-- C9: the timeline entry for the baseline year 2025 (the head of the
timeline) carries the current score of the unmodified request, and its
recommendations are generated from the unmodified request, since the BFE
rise is zero there. -/
theorem C9_baseline_year (request : AssessmentRequest)
    (h : 0 ≤ request.elevationAboveBFE) :
    (generateTimeline request).headI.year = 2025 ∧
    (generateTimeline request).headI.score = calculateCurrentScore request ∧
    (generateTimeline request).headI.recommendations =
      generateRecommendations request request.currentBFE := by
  have hhead : (generateTimeline request).headI =
      generateTimelineEntry config.baselineFloodParameters request 2025 := by
    simp [generateTimeline, generateTimelineWith, sortYears_eq]
  have hadj : adjustedRequest request 0 = request := by
    simp [adjustedRequest, max_eq_right h]
  refine ⟨?_, ?_, ?_⟩ <;> rw [hhead] <;> simp [generateTimelineEntry, hadj]

/-- Witness for C9 at concrete scenario 2. -/
theorem C9_baseline_year_witness :
    (0 ≤ scenario2.elevationAboveBFE) ∧
    ((generateTimeline scenario2).headI.year = 2025 ∧
      (generateTimeline scenario2).headI.score = calculateCurrentScore scenario2 ∧
      (generateTimeline scenario2).headI.recommendations =
        generateRecommendations scenario2 scenario2.currentBFE) :=
  ⟨by decide, C9_baseline_year scenario2 (by decide)⟩

/-- C10: with a non-negative annual rise rate, the timeline scores are
non-increasing in year: for any two entries, the later year's score is at
most the earlier year's. -/
theorem C10_scores_non_increasing (params : BaselineFloodParameters)
    (request : AssessmentRequest) (p q : ProjectionPoint)
    (hrate : 0 ≤ params.annualRiseRate)
    (hp : p ∈ generateTimelineWith params request)
    (hq : q ∈ generateTimelineWith params request)
    (hyear : p.year ≤ q.year) : q.score ≤ p.score := by
  simp only [generateTimelineWith] at hp hq
  obtain ⟨y1, hy1, rfl⟩ := List.mem_map.mp hp
  obtain ⟨y2, hy2, rfl⟩ := List.mem_map.mp hq
  have hy : y1 ≤ y2 := by simpa [generateTimelineEntry] using hyear
  have hk : ((y1 - 2025 : ℤ) : ℚ) * params.annualRiseRate ≤
      ((y2 - 2025 : ℤ) : ℚ) * params.annualRiseRate := by
    apply mul_le_mul_of_nonneg_right _ hrate
    exact_mod_cast sub_le_sub_right hy 2025
  simp only [generateTimelineEntry]
  apply calculateCurrentScore_adjusted_anti
  linarith

/-- Witness for C10: at the configured parameters and scenario 2, the 2055
entry's score is at most the 2025 entry's score. -/
theorem C10_scores_non_increasing_witness :
    (generateTimelineEntry config.baselineFloodParameters scenario2 2055).score ≤
      (generateTimelineEntry config.baselineFloodParameters scenario2 2025).score :=
  C10_scores_non_increasing config.baselineFloodParameters scenario2 _ _
    (by norm_num [config])
    (by simp only [generateTimelineWith, sortYears_eq]
        exact List.mem_map_of_mem _ (by norm_num))
    (by simp only [generateTimelineWith, sortYears_eq]
        exact List.mem_map_of_mem _ (by norm_num))
    (by norm_num [generateTimelineEntry])

end CAAT
